import Mathlib

/-!
Verification of the URL-Shortner service core (FastAPI application) against its
specification, via a shallow embedding of the Python source into Lean.

The persistent store is modelled as a `List URL` (the `urls` table) and the
repository functions (`app/repositories/url.py`) become pure functions over it.
Service methods (`app/services/url.py`, `app/services/auth.py`) become
functions returning `Except HTTPError α` together with the post-state of the
store; raising `HTTPException(status, detail, headers)` in Python corresponds
to returning `.error ⟨status, detail, headers⟩` here, with the store unchanged
(no path writes to the store before raising).

Nondeterminism of the cryptographic random source is modelled by passing the
choice of characters (for `RandomShortCodeGenerator.generate`) or the injected
generator strategy (for `URLService`) as an explicit function argument, exactly
as the source injects an `IShortCodeGenerator`.

Timestamps (`datetime.now(timezone.utc)`) are modelled as `Nat` instants
supplied by the caller; generated UUIDs are supplied as explicit arguments.
-/

namespace URLShortner

/-- The observable data of a raised `fastapi.HTTPException`:
status code, detail message and extra headers. -/
structure HTTPError where
  status : Nat
  detail : String
  headers : List (String × String)
  deriving Repr, DecidableEq

/-- Row of the `urls` table; mirrors `app/models/url.py` (`class URL`).
Column defaults (`clicks=0`, `is_active=True`, timestamps) are applied at the
construction sites that mirror the model's `default_factory` usage. -/
structure URL where
  id : String
  original_url : String
  short_code : String
  user_id : String
  title : Option String
  clicks : Nat
  is_active : Bool
  created_at : Nat
  updated_at : Nat
  deriving Repr, DecidableEq

/-- Row of the `users` table; mirrors `app/models/user.py` (fields used by the
authentication flow). -/
structure User where
  id : String
  email : String
  hashed_password : String
  is_active : Bool
  deriving Repr, DecidableEq

/-- Payload schema for creating a shortened URL; mirrors
`app/schemas/url.py` (`class URLCreate`). -/
structure URLCreate where
  original_url : String
  preferred_short_code : Option String
  title : Option String
  deriving Repr, DecidableEq

/-- Payload schema for updating a URL; mirrors `app/schemas/url.py`
(`class URLUpdate`). Both an omitted field and an explicit `null` deserialize
to `None` in the pydantic model, hence both are `none` here. -/
structure URLUpdate where
  title : Option String
  is_active : Option Bool
  deriving Repr, DecidableEq

/-- Query filters; mirrors `app/api/v1/filters/url_filter.py`
(`class URLFilter`). Timestamps are modelled as `Nat` like in `URL`. -/
structure URLFilter where
  title__ilike : Option String
  original_url__ilike : Option String
  is_active : Option Bool
  created_at__gte : Option Nat
  created_at__lte : Option Nat
  deriving Repr, DecidableEq

/-- Python `s.replace(old, "")` for a one-character `old` (the only use the
source makes of `str.replace`): drop every occurrence of the character.
Defined structurally because the library `String.replace` does not reduce in
the kernel. -/
def pyRemove (s : String) (old : Char) : String :=
  ⟨s.toList.filter (fun c => c != old)⟩

/-- Python `s.lower()`, for the ASCII strings this code applies it to.
Defined structurally because the library `String.toLower` does not reduce in
the kernel. -/
def pyLower (s : String) : String :=
  ⟨s.toList.map Char.toLower⟩

/-- Whether `pat` occurs at the head of `hay`. -/
def startsWithChars : List Char → List Char → Bool
  | [], _ => true
  | _ :: _, [] => false
  | p :: ps, h :: hs => p == h && startsWithChars ps hs

/-- Whether `pat` occurs contiguously anywhere in `hay`. -/
def containsChars (pat : List Char) : List Char → Bool
  | [] => pat.isEmpty
  | h :: hs => startsWithChars pat (h :: hs) || containsChars pat hs

/-- Case-insensitive substring test: the semantics of the `ilike` operator of
`fastapi_filter`, which compiles `field__ilike=v` to `field ILIKE '%v%'`. -/
def ilikeContains (hay pat : String) : Bool :=
  containsChars (pyLower pat).toList (pyLower hay).toList

/-- Whether a row satisfies every supplied predicate of a `URLFilter`
(the conjunction of WHERE clauses `Filter.filter` adds to the statement).
A SQL `NULL` column never matches an `ILIKE` pattern, hence `none` titles
fail a `title__ilike` predicate. -/
def URLFilter.matches (f : URLFilter) (u : URL) : Bool :=
  (match f.title__ilike with
   | none => true
   | some pat => match u.title with
     | none => false
     | some t => ilikeContains t pat)
  && (match f.original_url__ilike with
      | none => true
      | some pat => ilikeContains u.original_url pat)
  && (match f.is_active with
      | none => true
      | some b => u.is_active == b)
  && (match f.created_at__gte with
      | none => true
      | some t => t ≤ u.created_at)
  && (match f.created_at__lte with
      | none => true
      | some t => u.created_at ≤ t)

namespace URLRepository

/-- `URLRepository.get_by_short_code`: `SELECT ... WHERE short_code = code`,
`scalar_one_or_none` (the column is UNIQUE, so the first match is the row). -/
def get_by_short_code (store : List URL) (short_code : String) : Option URL :=
  store.find? (fun u => u.short_code == short_code)

/-- `URLRepository.create`: INSERT the new row. -/
def create (store : List URL) (url : URL) : List URL :=
  store ++ [url]

/-- `URLRepository.update`: persist the mutated ORM object — the row with the
same primary key is replaced. -/
def update (store : List URL) (url : URL) : List URL :=
  store.map (fun u => if u.id == url.id then url else u)

/-- `URLRepository.delete`: DELETE the row (hard delete by primary key). -/
def delete (store : List URL) (url : URL) : List URL :=
  store.filter (fun u => u.id != url.id)

/-- `URLRepository.increment_clicks`: `url.clicks += 1` then `update(url)`;
returns the refreshed entity together with the post-state. -/
def increment_clicks (store : List URL) (url : URL) : URL × List URL :=
  let url2 : URL := { url with clicks := url.clicks + 1 }
  (url2, update store url2)

/-- Insert a row into a list kept sorted by `created_at` descending. -/
def insertByCreatedDesc (u : URL) : List URL → List URL
  | [] => [u]
  | v :: vs =>
    if u.created_at ≤ v.created_at then v :: insertByCreatedDesc u vs
    else u :: v :: vs

/-- `ORDER BY created_at DESC` over a list of rows. -/
def orderByCreatedDesc : List URL → List URL
  | [] => []
  | u :: us => insertByCreatedDesc u (orderByCreatedDesc us)

/-- `URLRepository.get_by_user_id`: `WHERE user_id = ...` plus the filter's
clauses (SQL applies all WHERE clauses before ORDER BY / OFFSET / LIMIT),
ordered by `created_at DESC`, then `OFFSET skip LIMIT limit`. -/
def get_by_user_id (store : List URL) (user_id : String) (skip limit : Nat)
    (filters : Option URLFilter) : List URL :=
  let rows := store.filter (fun u => u.user_id == user_id)
  let rows := match filters with
    | some f => rows.filter f.matches
    | none => rows
  ((orderByCreatedDesc rows).drop skip).take limit

/-- `URLRepository.count_by_user_id`: `SELECT count(id) WHERE user_id = ...`
plus the filter's clauses. -/
def count_by_user_id (store : List URL) (user_id : String)
    (filters : Option URLFilter) : Nat :=
  let rows := store.filter (fun u => u.user_id == user_id)
  (match filters with
   | some f => rows.filter f.matches
   | none => rows).length

end URLRepository

namespace RandomShortCodeGenerator

/-- `string.ascii_letters` of Python. -/
def ascii_letters : String :=
  "abcdefghijklmnopqrstuvwxyzABCDEFGHIJKLMNOPQRSTUVWXYZ"

/-- `string.digits` of Python. -/
def digits : String := "0123456789"

/-- `self.characters` built in `RandomShortCodeGenerator.__init__`:
alphanumeric characters with `0`, `O`, `I`, `l` removed by the chain of
`.replace(c, "")` calls. -/
def characters : String :=
  pyRemove (pyRemove (pyRemove (pyRemove (ascii_letters ++ digits) '0') 'O') 'I') 'l'

/-- The alphabet as a list of characters. -/
def charList : List Char := characters.toList

/-- `RandomShortCodeGenerator.generate(length)`: a string of `length`
characters, each an element of `characters` chosen by `secrets.choice`.
The random source is modelled by `pick`: draw `i` selects the character at
index `pick i % charList.length`, so exactly the strings over the alphabet
of the requested length are producible. -/
def generate (pick : Nat → Nat) (length : Nat) : String :=
  String.mk ((List.range length).map
    (fun i => charList.getD (pick i % charList.length) 'a'))

end RandomShortCodeGenerator

namespace URLCreate

/-- The reserved-word denylist of `URLCreate.validate_short_code`
(`app/schemas/url.py`). -/
def reserved : List String :=
  ["api", "admin", "login", "signup", "logout", "docs", "redoc", "auth"]

/-- Python `re.match(r"^[a-zA-Z0-9_-]+$", v)`: one or more characters from
`[a-zA-Z0-9_-]`; `$` also matches just before one trailing newline. -/
def regexMatches (s : String) : Bool :=
  let cs := s.toList
  let cs := if cs.getLast? == some (Char.ofNat 10) then cs.dropLast else cs
  !cs.isEmpty && cs.all (fun c => c.isAlphanum || c == '-' || c == '_')

/-- `URLCreate.validate_short_code`: the pydantic field validator for
`preferred_short_code`; `.error` corresponds to `raise ValueError(...)`. -/
def validate_short_code (v : Option String) : Except String (Option String) :=
  match v with
  | none => .ok none
  | some s =>
    if !regexMatches s then
      .error "Short code can only contain letters, numbers, hyphens, and underscores"
    else if reserved.contains (pyLower s) then
      .error ("Short code \"" ++ s ++ "\" is reserved and cannot be used")
    else .ok (some s)

end URLCreate

namespace AuthService

/-- `AuthService.authenticate_user` (`app/services/auth.py`). The user store
lookup (`UserRepository.get_by_email`), the password check
(`PasswordHasher.verify`) and the token issuer
(`TokenManager.create_access_token`, keyed on the user's email) are the
injected collaborators, passed as function arguments. The two `Unauthorized`
raise sites are transcribed separately, as in the source. -/
def authenticate_user (get_by_email : String → Option User)
    (verify : String → String → Bool) (create_access_token : String → String)
    (email password : String) : Except HTTPError String :=
  match get_by_email email with
  | none =>
    .error ⟨401, "Incorrect username or password", [("WWW-Authenticate", "Bearer")]⟩
  | some user =>
    if !(verify password user.hashed_password) then
      .error ⟨401, "Incorrect username or password", [("WWW-Authenticate", "Bearer")]⟩
    else if !user.is_active then
      .error ⟨400, "Inactive user", []⟩
    else
      .ok (create_access_token user.email)

end AuthService

namespace URLService

/-- `URLService.MAX_RETRIES`. -/
def MAX_RETRIES : Nat := 5

/-- The loop body of `URLService._generate_unique_short_code`: `remaining`
iterations are left out of `MAX_RETRIES`, `attempt` is the current loop index
and `length` the current requested length. Falling out of the loop raises
`HTTPException(500, ...)`. The injected `IShortCodeGenerator` is modelled as
`gen : Nat → Nat → String`, mapping the call number and the requested length
to the drawn code. -/
def generateUniqueShortCodeAux (gen : Nat → Nat → String) (store : List URL) :
    Nat → Nat → Nat → Except HTTPError String
  | 0, _, _ =>
    .error ⟨500, "Unable to generate unique short code. Please try again.", []⟩
  | remaining + 1, attempt, length =>
    let short_code := gen attempt length
    match URLRepository.get_by_short_code store short_code with
    | none => .ok short_code
    | some _ =>
      generateUniqueShortCodeAux gen store remaining (attempt + 1)
        (if attempt == MAX_RETRIES - 1 then length + 1 else length)

/-- `URLService._generate_unique_short_code(length)`. -/
def generateUniqueShortCode (gen : Nat → Nat → String) (store : List URL)
    (length : Nat) : Except HTTPError String :=
  generateUniqueShortCodeAux gen store MAX_RETRIES 0 length

/-- `URLService.create_short_url(url_data, user_id)`. `new_id` and `now` model
the `default_factory` values (UUID and current instant) of the `URL` model;
the service itself sets `clicks=0` and `is_active=True` through those
defaults. Returns the result together with the post-state of the store. -/
def create_short_url (gen : Nat → Nat → String) (store : List URL)
    (url_data : URLCreate) (user_id : String) (new_id : String) (now : Nat) :
    Except HTTPError URL × List URL :=
  let short_code : Except HTTPError String :=
    match url_data.preferred_short_code with
    | some pref =>
      match URLRepository.get_by_short_code store pref with
      | some _ => generateUniqueShortCode gen store 6
      | none => .ok pref
    | none => generateUniqueShortCode gen store 6
  match short_code with
  | .error e => (.error e, store)
  | .ok code =>
    let url : URL :=
      { id := new_id
        original_url := url_data.original_url
        short_code := code
        user_id := user_id
        title := url_data.title
        clicks := 0
        is_active := true
        created_at := now
        updated_at := now }
    (.ok url, URLRepository.create store url)

/-- `URLService.get_url_by_short_code(short_code)`: 404 when absent, 410 when
present but inactive, else the row. -/
def get_url_by_short_code (store : List URL) (short_code : String) :
    Except HTTPError URL :=
  match URLRepository.get_by_short_code store short_code with
  | none => .error ⟨404, "Short URL not found", []⟩
  | some url =>
    if !url.is_active then
      .error ⟨410, "This short URL has been deactivated", []⟩
    else .ok url

/-- `URLService.get_user_urls(user_id, page, page_size)`: note the source
signature has no filters parameter, and the repository calls pass none. -/
def get_user_urls (store : List URL) (user_id : String) (page page_size : Nat) :
    List URL × Nat :=
  let skip := (page - 1) * page_size
  (URLRepository.get_by_user_id store user_id skip page_size none,
   URLRepository.count_by_user_id store user_id none)

/-- `URLService.update_url(short_code, url_update, user_id)`; `now` models
`datetime.now(timezone.utc)` at the `updated_at` assignment. -/
def update_url (store : List URL) (short_code : String) (url_update : URLUpdate)
    (user_id : String) (now : Nat) : Except HTTPError URL × List URL :=
  match URLRepository.get_by_short_code store short_code with
  | none => (.error ⟨404, "Short URL not found", []⟩, store)
  | some url =>
    if url.user_id != user_id then
      (.error ⟨403, "You don\x27t have permission to update this URL", []⟩, store)
    else
      let url1 := match url_update.title with
        | some t => { url with title := some t }
        | none => url
      let url2 := match url_update.is_active with
        | some b => { url1 with is_active := b }
        | none => url1
      let url3 := { url2 with updated_at := now }
      (.ok url3, URLRepository.update store url3)

/-- `URLService.delete_url(short_code, user_id)`. -/
def delete_url (store : List URL) (short_code : String) (user_id : String) :
    Except HTTPError Unit × List URL :=
  match URLRepository.get_by_short_code store short_code with
  | none => (.error ⟨404, "Short URL not found", []⟩, store)
  | some url =>
    if url.user_id != user_id then
      (.error ⟨403, "You don\x27t have permission to delete this URL", []⟩, store)
    else
      (.ok (), URLRepository.delete store url)

/-- `URLService.increment_click(short_code)`: `get_url_by_short_code` then
`URLRepository.increment_clicks`. -/
def increment_click (store : List URL) (short_code : String) :
    Except HTTPError URL × List URL :=
  match get_url_by_short_code store short_code with
  | .error e => (.error e, store)
  | .ok url =>
    let r := URLRepository.increment_clicks store url
    (.ok r.1, r.2)

end URLService

/-! Named error values (the observable data of each raise site), and concrete
fixtures used to exercise the theorems. -/

/-- `HTTPException(404, "Short URL not found")`. -/
def notFoundError : HTTPError := ⟨404, "Short URL not found", []⟩

/-- `HTTPException(410, "This short URL has been deactivated")`. -/
def goneError : HTTPError := ⟨410, "This short URL has been deactivated", []⟩

/-- The login failure of `authenticate_user` (both raise sites). -/
def unauthorizedLoginError : HTTPError :=
  ⟨401, "Incorrect username or password", [("WWW-Authenticate", "Bearer")]⟩

/-- `HTTPException(400, "Inactive user")`. -/
def inactiveAccountError : HTTPError := ⟨400, "Inactive user", []⟩

/-- The 500 raised when `_generate_unique_short_code` exhausts its retries. -/
def allocationExhaustedError : HTTPError :=
  ⟨500, "Unable to generate unique short code. Please try again.", []⟩

/-- The 403 raised by `update_url` for a non-owner. -/
def forbiddenUpdateError : HTTPError :=
  ⟨403, "You don\x27t have permission to update this URL", []⟩

/-- The 403 raised by `delete_url` for a non-owner. -/
def forbiddenDeleteError : HTTPError :=
  ⟨403, "You don\x27t have permission to delete this URL", []⟩

/-- Fixture: an active stored URL owned by alice. -/
def urlW : URL :=
  ⟨"id1", "https://example.com/a", "abc123", "alice", some "Keep", 4, true, 5, 5⟩

/-- Fixture: a deactivated stored URL owned by alice. -/
def urlWInactive : URL :=
  ⟨"id2", "https://example.com/b", "off456", "alice", none, 2, false, 6, 6⟩

/-- Fixture store holding one active and one deactivated URL. -/
def storeW : List URL := [urlW, urlWInactive]

/-- Fixture user for the authentication theorems. -/
def aliceUser : User := ⟨"uid-1", "alice@example.com", "hash-a", true⟩

/-- Fixture user (deactivated) for the authentication theorems. -/
def carolUser : User := ⟨"uid-2", "carol@example.com", "hash-c", false⟩

/-- Fixture email lookup over the two fixture users. -/
def lookupW (email : String) : Option User :=
  if email == "alice@example.com" then some aliceUser
  else if email == "carol@example.com" then some carolUser
  else none

/-- Fixture password check: the password must equal the stored digest with
"hash-" removed from the front. -/
def verifyW (password digest : String) : Bool :=
  ("hash-" ++ password) == digest

/-- Fixture generator that always draws a code already present in `storeW`. -/
def genColliding : Nat → Nat → String := fun _ _ => "abc123"

/-- Fixture generator whose first two draws collide with `storeW` and whose
third draw is free. -/
def genFreshLater : Nat → Nat → String :=
  fun i _ => if i < 2 then "abc123" else "qq77qq"

/-- Fixture choice sequence spelling out "signup" over the alphabet. -/
def signupPick : Nat → Nat := fun i => [17, 8, 6, 12, 19, 14].getD i 0

/-- Fixture: a URL occupying the short code "nord". -/
def urlNord : URL :=
  ⟨"u-1", "https://a.example/", "nord", "alice", none, 0, true, 0, 0⟩

/-- Fixture store in which "nord" is taken. -/
def storeNord : List URL := [urlNord]

/-- Fixture generator every draw of which collides with `storeNord`. -/
def genNordOnly : Nat → Nat → String := fun _ _ => "nord"

/-- Fixture create payload asking for the preferred code "nord". -/
def createNordPayload : URLCreate := ⟨"https://b.example/", some "nord", none⟩

/-- Fixture generator whose every draw is the free code "xq7pw2". -/
def genFreshX : Nat → Nat → String := fun _ _ => "xq7pw2"

/-- The row created when the preferred "nord" is taken and the fallback draw
is "xq7pw2". -/
def urlX : URL :=
  ⟨"u-2", "https://b.example/", "xq7pw2", "bob", none, 0, true, 7, 7⟩

/-- Fixture update payload: change the title, leave the active flag absent. -/
def updTitleOnly : URLUpdate := ⟨some "New", none⟩

/-- The fixture row after one recorded view. -/
def urlWBumped : URL :=
  ⟨"id1", "https://example.com/a", "abc123", "alice", some "Keep", 5, true, 5, 5⟩

/-- Fixture update payload: deactivate, title absent (= null). -/
def updDeactivate : URLUpdate := ⟨none, some false⟩

/-- The fixture row after the deactivating update at instant 9. -/
def urlWAfter : URL :=
  ⟨"id1", "https://example.com/a", "abc123", "alice", some "Keep", 4, false, 5, 9⟩

/-- Fixture: an older, deactivated URL of alice. -/
def urlOld8 : URL :=
  ⟨"a1", "https://one.example/", "code-a", "alice", some "first", 3, false, 10, 10⟩

/-- Fixture: a newer, active URL of alice. -/
def urlNew8 : URL :=
  ⟨"a2", "https://two.example/", "code-b", "alice", some "second", 1, true, 20, 20⟩

/-- Fixture: a URL of another owner. -/
def urlOther8 : URL :=
  ⟨"b1", "https://three.example/", "code-c", "bob", none, 0, true, 15, 15⟩

/-- Fixture store for the listing theorems. -/
def store8 : List URL := [urlOld8, urlNew8, urlOther8]

/-- Fixture filter selecting only active rows. -/
def activeOnlyFilter : URLFilter := ⟨none, none, some true, none, none⟩

/-- C4: `get_url_by_short_code` fails with `NotFound` exactly when no row with
the code exists, fails with `Gone` exactly when a row exists but is inactive,
returns an existing active row, and the two failures are distinguishable. -/
theorem C4_getByCode_notFound_gone (store : List URL) (code : String) :
    (URLService.get_url_by_short_code store code = .error notFoundError
      ↔ URLRepository.get_by_short_code store code = none)
    ∧ (URLService.get_url_by_short_code store code = .error goneError
      ↔ ∃ u, URLRepository.get_by_short_code store code = some u
          ∧ u.is_active = false)
    ∧ (∀ u, URLRepository.get_by_short_code store code = some u →
        u.is_active = true →
        URLService.get_url_by_short_code store code = .ok u)
    ∧ notFoundError.status = 404 ∧ goneError.status = 410
    ∧ notFoundError ≠ goneError := by
  refine ⟨?_, ?_, ?_, rfl, rfl, by decide⟩
  · cases h : URLRepository.get_by_short_code store code with
    | none => simp [URLService.get_url_by_short_code, h, notFoundError]
    | some u =>
      cases hb : u.is_active <;>
        simp [URLService.get_url_by_short_code, h, hb, notFoundError]
  · cases h : URLRepository.get_by_short_code store code with
    | none => simp [URLService.get_url_by_short_code, h, goneError]
    | some u =>
      cases hb : u.is_active <;>
        simp [URLService.get_url_by_short_code, h, hb, goneError]
  · intro u hu ha
    simp [URLService.get_url_by_short_code, hu, ha]

/-- C4 witness: the characterization evaluated on the fixture store. -/
theorem C4_witness :
    URLService.get_url_by_short_code storeW "abc123" = .ok urlW
    ∧ URLService.get_url_by_short_code storeW "off456" = .error goneError
    ∧ URLService.get_url_by_short_code storeW "zzzzzz" = .error notFoundError :=
  ⟨(C4_getByCode_notFound_gone storeW "abc123").2.2.1 urlW (by decide) (by decide),
   (C4_getByCode_notFound_gone storeW "off456").2.1.mpr
     ⟨urlWInactive, by decide, by decide⟩,
   (C4_getByCode_notFound_gone storeW "zzzzzz").1.mpr (by decide)⟩

/-- C2: `authenticate_user` returns the same `Unauthorized` error value (same
status, detail and headers) when the user is absent and when the password
check fails, and the `InactiveAccount` error occurs exactly when the password
verifies and the user is inactive. -/
theorem C2_authenticate_indistinguishable (get_by_email : String → Option User)
    (verify : String → String → Bool) (issue : String → String)
    (email password : String) :
    (get_by_email email = none →
      AuthService.authenticate_user get_by_email verify issue email password
        = .error unauthorizedLoginError)
    ∧ (∀ u, get_by_email email = some u →
        verify password u.hashed_password = false →
        AuthService.authenticate_user get_by_email verify issue email password
          = .error unauthorizedLoginError)
    ∧ (AuthService.authenticate_user get_by_email verify issue email password
          = .error inactiveAccountError
        ↔ ∃ u, get_by_email email = some u
            ∧ verify password u.hashed_password = true ∧ u.is_active = false)
    ∧ unauthorizedLoginError.status = 401 := by
  refine ⟨?_, ?_, ?_, rfl⟩
  · intro h
    simp [AuthService.authenticate_user, h, unauthorizedLoginError]
  · intro u hu hv
    simp [AuthService.authenticate_user, hu, hv, unauthorizedLoginError]
  · cases h : get_by_email email with
    | none =>
      simp [AuthService.authenticate_user, h, inactiveAccountError,
        unauthorizedLoginError]
    | some u =>
      cases hv : verify password u.hashed_password with
      | false =>
        simp [AuthService.authenticate_user, h, hv, inactiveAccountError,
          unauthorizedLoginError]
      | true =>
        cases ha : u.is_active <;>
          simp [AuthService.authenticate_user, h, hv, ha, inactiveAccountError]

/-- C2 witness: absent user and wrong password produce the same error value,
and the inactive-account error shows up for the deactivated user. -/
theorem C2_witness :
    AuthService.authenticate_user lookupW verifyW (fun e => e) "bob@example.com" "a"
      = .error unauthorizedLoginError
    ∧ AuthService.authenticate_user lookupW verifyW (fun e => e) "alice@example.com" "wrong"
      = .error unauthorizedLoginError
    ∧ AuthService.authenticate_user lookupW verifyW (fun e => e) "carol@example.com" "c"
      = .error inactiveAccountError :=
  ⟨(C2_authenticate_indistinguishable lookupW verifyW (fun e => e)
      "bob@example.com" "a").1 (by decide),
   (C2_authenticate_indistinguishable lookupW verifyW (fun e => e)
      "alice@example.com" "wrong").2.1 aliceUser (by decide) (by decide),
   (C2_authenticate_indistinguishable lookupW verifyW (fun e => e)
      "carol@example.com" "c").2.2.1.mpr ⟨carolUser, by decide, by decide, by decide⟩⟩

/-- Any code returned by the retry loop was checked free against the store. -/
theorem generateAux_ok_fresh (gen : Nat → Nat → String) (store : List URL) :
    ∀ r a len c, URLService.generateUniqueShortCodeAux gen store r a len = .ok c →
      URLRepository.get_by_short_code store c = none := by
  intro r
  induction r with
  | zero =>
    intro a len c h
    simp [URLService.generateUniqueShortCodeAux] at h
  | succ n ih =>
    intro a len c h
    unfold URLService.generateUniqueShortCodeAux at h
    cases hg : URLRepository.get_by_short_code store (gen a len) with
    | none =>
      simp only [hg, Except.ok.injEq] at h
      rw [← h]
      exact hg
    | some u =>
      simp only [hg] at h
      exact ih _ _ _ h

/-- The only error the retry loop can produce is the exhaustion 500. -/
theorem generateAux_error_alloc (gen : Nat → Nat → String) (store : List URL) :
    ∀ r a len e, URLService.generateUniqueShortCodeAux gen store r a len = .error e →
      e = allocationExhaustedError := by
  intro r
  induction r with
  | zero =>
    intro a len e h
    simp [URLService.generateUniqueShortCodeAux, allocationExhaustedError] at h
    exact h.symm
  | succ n ih =>
    intro a len e h
    unfold URLService.generateUniqueShortCodeAux at h
    cases hg : URLRepository.get_by_short_code store (gen a len) with
    | none => simp only [hg] at h; exact absurd h (by simp)
    | some u => simp only [hg] at h; exact ih _ _ _ h

/-- C1: random allocation makes up to `MAX_RETRIES = 5` draws, all at the
default length 6, checks the store after each draw, returns the first free
code, and after five collisions fails with the exhaustion error, a 5xx
server-side fault. -/
theorem C1_random_allocation (gen : Nat → Nat → String) (store : List URL) :
    ((∀ i, i < 5 →
        (URLRepository.get_by_short_code store (gen i 6)).isSome = true) →
      URLService.generateUniqueShortCode gen store 6
        = .error allocationExhaustedError)
    ∧ (∀ i, i < 5 → URLRepository.get_by_short_code store (gen i 6) = none →
        (∀ j, j < i →
          (URLRepository.get_by_short_code store (gen j 6)).isSome = true) →
        URLService.generateUniqueShortCode gen store 6 = .ok (gen i 6))
    ∧ URLService.MAX_RETRIES = 5
    ∧ 500 ≤ allocationExhaustedError.status := by
  refine ⟨?_, ?_, rfl, by decide⟩
  · intro h
    obtain ⟨u0, h0⟩ := Option.isSome_iff_exists.mp (h 0 (by omega))
    obtain ⟨u1, h1⟩ := Option.isSome_iff_exists.mp (h 1 (by omega))
    obtain ⟨u2, h2⟩ := Option.isSome_iff_exists.mp (h 2 (by omega))
    obtain ⟨u3, h3⟩ := Option.isSome_iff_exists.mp (h 3 (by omega))
    obtain ⟨u4, h4⟩ := Option.isSome_iff_exists.mp (h 4 (by omega))
    simp [URLService.generateUniqueShortCode, URLService.generateUniqueShortCodeAux,
      URLService.MAX_RETRIES, h0, h1, h2, h3, h4, allocationExhaustedError]
  · intro i hi hfree hprev
    interval_cases i
    · simp [URLService.generateUniqueShortCode,
        URLService.generateUniqueShortCodeAux, URLService.MAX_RETRIES, hfree]
    · obtain ⟨u0, h0⟩ := Option.isSome_iff_exists.mp (hprev 0 (by omega))
      simp [URLService.generateUniqueShortCode,
        URLService.generateUniqueShortCodeAux, URLService.MAX_RETRIES, h0, hfree]
    · obtain ⟨u0, h0⟩ := Option.isSome_iff_exists.mp (hprev 0 (by omega))
      obtain ⟨u1, h1⟩ := Option.isSome_iff_exists.mp (hprev 1 (by omega))
      simp [URLService.generateUniqueShortCode,
        URLService.generateUniqueShortCodeAux, URLService.MAX_RETRIES, h0, h1, hfree]
    · obtain ⟨u0, h0⟩ := Option.isSome_iff_exists.mp (hprev 0 (by omega))
      obtain ⟨u1, h1⟩ := Option.isSome_iff_exists.mp (hprev 1 (by omega))
      obtain ⟨u2, h2⟩ := Option.isSome_iff_exists.mp (hprev 2 (by omega))
      simp [URLService.generateUniqueShortCode,
        URLService.generateUniqueShortCodeAux, URLService.MAX_RETRIES, h0, h1, h2,
        hfree]
    · obtain ⟨u0, h0⟩ := Option.isSome_iff_exists.mp (hprev 0 (by omega))
      obtain ⟨u1, h1⟩ := Option.isSome_iff_exists.mp (hprev 1 (by omega))
      obtain ⟨u2, h2⟩ := Option.isSome_iff_exists.mp (hprev 2 (by omega))
      obtain ⟨u3, h3⟩ := Option.isSome_iff_exists.mp (hprev 3 (by omega))
      simp [URLService.generateUniqueShortCode,
        URLService.generateUniqueShortCodeAux, URLService.MAX_RETRIES, h0, h1, h2,
        h3, hfree]

/-- C1 witness: five collisions produce the exhaustion error; a free third
draw is returned. -/
theorem C1_witness :
    URLService.generateUniqueShortCode genColliding storeW 6
      = .error allocationExhaustedError
    ∧ URLService.generateUniqueShortCode genFreshLater storeW 6 = .ok "qq77qq" := by
  constructor
  · exact (C1_random_allocation genColliding storeW).1
      (fun i _ =>
        (by decide : (URLRepository.get_by_short_code storeW "abc123").isSome = true))
  · exact (C1_random_allocation genFreshLater storeW).2.1 2 (by omega) (by decide)
      (fun j hj => by interval_cases j <;> decide)

/-- A generated code has exactly the requested length. -/
theorem generate_length (pick : Nat → Nat) (n : Nat) :
    (RandomShortCodeGenerator.generate pick n).length = n := by
  simp [RandomShortCodeGenerator.generate, String.length]

/-- Every character of a generated code belongs to the generator's alphabet. -/
theorem generate_chars_in_alphabet (pick : Nat → Nat) (n : Nat) :
    ∀ c ∈ (RandomShortCodeGenerator.generate pick n).toList,
      c ∈ RandomShortCodeGenerator.charList := by
  intro c hc
  simp only [RandomShortCodeGenerator.generate, String.toList] at hc
  obtain ⟨i, hi, hdef⟩ := List.mem_map.mp hc
  rw [← hdef, List.getD_eq_getElem?_getD]
  have hlt : pick i % RandomShortCodeGenerator.charList.length
      < RandomShortCodeGenerator.charList.length :=
    Nat.mod_lt _ (by decide)
  rw [List.getElem?_eq_getElem hlt]
  exact List.getElem_mem hlt

/-- C3 counterexample: the random generator can draw the reserved word
"signup" (every character is in its alphabet and the word has the generated
length 6), and a create call whose generator draws it assigns it as the short
code with no denylist check. -/
theorem C3_counterexample :
    RandomShortCodeGenerator.generate signupPick 6 = "signup"
    ∧ URLCreate.reserved.contains (pyLower "signup") = true
    ∧ (URLService.create_short_url
        (fun _ _ => RandomShortCodeGenerator.generate signupPick 6) []
        ⟨"https://example.net/page", none, none⟩ "alice" "id-9" 3).1
      = .ok ⟨"id-9", "https://example.net/page", "signup", "alice", none, 0,
          true, 3, 3⟩ := by
  exact ⟨rfl, rfl, rfl⟩

/-- C3 (amended): a preferred code whose lowercase form is reserved never
passes schema validation (and is rejected with the reserved-word error when it
matches the allowed pattern), and the random generator at its draw length 6
can produce no reserved word other than "signup". -/
theorem C3_reserved_denylist (s w : String) (pick : Nat → Nat) :
    (∀ r, URLCreate.validate_short_code (some s) = .ok r →
      URLCreate.reserved.contains (pyLower s) = false)
    ∧ (URLCreate.reserved.contains (pyLower s) = true →
        URLCreate.regexMatches s = true →
        URLCreate.validate_short_code (some s)
          = .error ("Short code \"" ++ s ++ "\" is reserved and cannot be used"))
    ∧ (URLCreate.reserved.contains w = true → w ≠ "signup" →
        RandomShortCodeGenerator.generate pick 6 ≠ w) := by
  refine ⟨?_, ?_, ?_⟩
  · intro r h
    cases hc : URLCreate.reserved.contains (pyLower s) with
    | false => rfl
    | true =>
      exfalso
      unfold URLCreate.validate_short_code at h
      cases hm : URLCreate.regexMatches s with
      | false => simp only [hm, Bool.not_false, if_true] at h; exact absurd h (by simp)
      | true =>
        have hc2 : pyLower s ∈ URLCreate.reserved := by simpa using hc
        simp [hm, hc2] at h
  · intro hres hregex
    have hres2 : pyLower s ∈ URLCreate.reserved := by simpa using hres
    simp [URLCreate.validate_short_code, hregex, hres2]
  · intro hw hne heq
    have hmem : w ∈ URLCreate.reserved := by
      simpa using hw
    have hlen : (6 : Nat) = w.length := by
      rw [← generate_length pick 6, heq]
    fin_cases hmem
    · exact absurd hlen (by decide)
    · exact absurd hlen (by decide)
    · exact absurd hlen (by decide)
    · exact hne rfl
    · -- w = "logout": contains the excluded character l
      have hl : Char.ofNat 108 ∈ (RandomShortCodeGenerator.generate pick 6).toList := by
        rw [heq]; decide
      have := generate_chars_in_alphabet pick 6 _ hl
      rw [show (RandomShortCodeGenerator.charList
          = RandomShortCodeGenerator.characters.toList) from rfl] at this
      exact absurd this (by decide)
    · exact absurd hlen (by decide)
    · exact absurd hlen (by decide)
    · exact absurd hlen (by decide)

/-- C3 witness: the reserved-word rejection on "Admin" and the impossibility
of drawing "logout", instantiated concretely. -/
theorem C3_witness :
    URLCreate.validate_short_code (some "Admin")
      = .error ("Short code \"" ++ "Admin" ++ "\" is reserved and cannot be used")
    ∧ RandomShortCodeGenerator.generate signupPick 6 ≠ "logout" :=
  ⟨(C3_reserved_denylist "Admin" "logout" signupPick).2.1 rfl rfl,
   (C3_reserved_denylist "Admin" "logout" signupPick).2.2 rfl (by decide)⟩

/-- C5 counterexample: with the preferred code taken and every fallback draw
colliding, the call does not succeed — it fails with the exhaustion 500, so
"the call still succeeds" does not hold of every call with a taken preferred
code. -/
theorem C5_counterexample :
    (URLService.create_short_url genNordOnly storeNord createNordPayload
        "bob" "u-2" 7).1
      = .error allocationExhaustedError := by
  exact rfl

/-- C5 (amended): with a free preferred code the created row carries it; with
a taken preferred code no preference-related error is surfaced — the service
silently falls back to random generation, and when that succeeds the created
row carries a code that was free in the store, hence different from the
preferred one; the only possible failure is the exhaustion 500, which leaves
the store unchanged. -/
theorem C5_preferred_code (gen : Nat → Nat → String) (store : List URL)
    (url_data : URLCreate) (user_id new_id : String) (now : Nat) (pref : String) :
    url_data.preferred_short_code = some pref →
    ((URLRepository.get_by_short_code store pref = none →
        ∃ url st, URLService.create_short_url gen store url_data user_id new_id now
            = (.ok url, st)
          ∧ url.short_code = pref)
    ∧ (∀ u0, URLRepository.get_by_short_code store pref = some u0 →
        (∀ url st,
          URLService.create_short_url gen store url_data user_id new_id now
              = (.ok url, st) →
          url.short_code ≠ pref
          ∧ URLRepository.get_by_short_code store url.short_code = none)
        ∧ (∀ e st,
            URLService.create_short_url gen store url_data user_id new_id now
                = (.error e, st) →
            e = allocationExhaustedError ∧ st = store))) := by
  intro hpref
  constructor
  · intro hfree
    simp only [URLService.create_short_url, hpref, hfree]
    exact ⟨_, _, rfl, rfl⟩
  · intro u0 htaken
    constructor
    · intro url st h
      simp only [URLService.create_short_url, hpref, htaken] at h
      cases hg : URLService.generateUniqueShortCode gen store 6 with
      | error e => rw [hg] at h; simp at h
      | ok c =>
        rw [hg] at h
        simp only [Prod.mk.injEq, Except.ok.injEq] at h
        have hfreshc : URLRepository.get_by_short_code store c = none :=
          generateAux_ok_fresh gen store _ _ _ _ hg
        have hcode : url.short_code = c := by rw [← h.1]
        constructor
        · intro hbad
          rw [hcode] at hbad
          rw [hbad, htaken] at hfreshc
          exact Option.noConfusion hfreshc
        · rw [hcode]; exact hfreshc
    · intro e st h
      simp only [URLService.create_short_url, hpref, htaken] at h
      cases hg : URLService.generateUniqueShortCode gen store 6 with
      | error e2 =>
        rw [hg] at h
        simp only [Prod.mk.injEq, Except.error.injEq] at h
        exact ⟨h.1 ▸ generateAux_error_alloc gen store _ _ _ _ hg, h.2.symm⟩
      | ok c => rw [hg] at h; simp at h

/-- C5 witness: concrete free and taken preferred-code calls. -/
theorem C5_witness :
    URLService.create_short_url genFreshX storeNord createNordPayload "bob" "u-2" 7
      = (.ok urlX, storeNord ++ [urlX])
    ∧ urlX.short_code ≠ "nord"
    ∧ (∃ url st,
        URLService.create_short_url genFreshX [] createNordPayload "bob" "u-2" 7
          = (.ok url, st) ∧ url.short_code = "nord") := by
  refine ⟨rfl, ?_, ?_⟩
  · exact (((C5_preferred_code genFreshX storeNord createNordPayload "bob" "u-2" 7
      "nord" rfl).2 urlNord rfl).1 urlX (storeNord ++ [urlX]) rfl).1
  · exact (C5_preferred_code genFreshX [] createNordPayload "bob" "u-2" 7
      "nord" rfl).1 rfl

/-- C6: update and delete both fail `NotFound` when the code is absent and
`Forbidden` (leaving the store unchanged) when the caller is not the owner;
for the owner, update applies exactly the supplied fields, bumps `updated_at`
and leaves every other column unchanged, while delete removes the row. -/
theorem C6_update_delete (store : List URL) (code : String) (upd : URLUpdate)
    (uid : String) (now : Nat) :
    (URLRepository.get_by_short_code store code = none →
      URLService.update_url store code upd uid now = (.error notFoundError, store)
      ∧ URLService.delete_url store code uid = (.error notFoundError, store))
    ∧ (∀ url, URLRepository.get_by_short_code store code = some url →
        (url.user_id ≠ uid →
          URLService.update_url store code upd uid now
            = (.error forbiddenUpdateError, store)
          ∧ URLService.delete_url store code uid
            = (.error forbiddenDeleteError, store))
        ∧ (url.user_id = uid →
          (∃ url3,
            URLService.update_url store code upd uid now
              = (.ok url3, URLRepository.update store url3)
            ∧ url3.title = upd.title.or url.title
            ∧ url3.is_active = upd.is_active.getD url.is_active
            ∧ url3.updated_at = now
            ∧ url3.id = url.id ∧ url3.original_url = url.original_url
            ∧ url3.short_code = url.short_code ∧ url3.user_id = url.user_id
            ∧ url3.clicks = url.clicks ∧ url3.created_at = url.created_at)
          ∧ URLService.delete_url store code uid
            = (.ok (), store.filter (fun u => u.id != url.id)))) := by
  refine ⟨?_, ?_⟩
  · intro h
    constructor <;>
      simp [URLService.update_url, URLService.delete_url, h, notFoundError]
  · intro url h
    constructor
    · intro hne
      constructor <;>
        simp [URLService.update_url, URLService.delete_url, h, hne,
          forbiddenUpdateError, forbiddenDeleteError]
    · intro heq
      refine ⟨?_, ?_⟩
      · cases htitle : upd.title with
        | none =>
          cases hact : upd.is_active with
          | none =>
            refine ⟨{ url with updated_at := now }, ?_, ?_, ?_, rfl, rfl, rfl, rfl, rfl, rfl, rfl⟩
            · simp [URLService.update_url, h, heq, htitle, hact]
            · rfl
            · rfl
          | some b =>
            refine ⟨{ url with is_active := b, updated_at := now }, ?_, ?_, ?_, rfl, rfl, rfl, rfl, rfl, rfl, rfl⟩
            · simp [URLService.update_url, h, heq, htitle, hact]
            · rfl
            · rfl
        | some t =>
          cases hact : upd.is_active with
          | none =>
            refine ⟨{ url with title := some t, updated_at := now }, ?_, ?_, ?_, rfl, rfl, rfl, rfl, rfl, rfl, rfl⟩
            · simp [URLService.update_url, h, heq, htitle, hact]
            · rfl
            · rfl
          | some b =>
            refine ⟨{ url with title := some t, is_active := b, updated_at := now }, ?_, ?_, ?_, rfl, rfl, rfl, rfl, rfl, rfl, rfl⟩
            · simp [URLService.update_url, h, heq, htitle, hact]
            · rfl
            · rfl
      · simp [URLService.delete_url, h, heq, URLRepository.delete]

/-- C6 witness: a missing code, a non-owner delete, and an owner update on
the fixture store. -/
theorem C6_witness :
    URLService.update_url storeW "zzzzzz" updTitleOnly "alice" 9
      = (.error notFoundError, storeW)
    ∧ URLService.delete_url storeW "abc123" "mallory"
      = (.error forbiddenDeleteError, storeW)
    ∧ (∃ url3, URLService.update_url storeW "abc123" updTitleOnly "alice" 9
        = (.ok url3, URLRepository.update storeW url3)
        ∧ url3.title = some "New" ∧ url3.is_active = true
        ∧ url3.clicks = urlW.clicks) := by
  refine ⟨?_, ?_, ?_⟩
  · exact ((C6_update_delete storeW "zzzzzz" updTitleOnly "alice" 9).1 rfl).1
  · exact (((C6_update_delete storeW "abc123" updTitleOnly "mallory" 9).2 urlW
      rfl).1 (by decide)).2
  · obtain ⟨u3, he, ht, ha, _, _, _, _, _, hc, _⟩ :=
      (((C6_update_delete storeW "abc123" updTitleOnly "alice" 9).2 urlW
        rfl).2 rfl).1
    exact ⟨u3, he, ht, ha, hc⟩

/-- `update_url` never changes the click counter: every row of the post-state
has the clicks of a pre-state row with the same id. -/
theorem update_url_clicks_preserved (store : List URL) (code : String)
    (upd : URLUpdate) (uid : String) (now : Nat) :
    ∀ v2 ∈ (URLService.update_url store code upd uid now).2,
      ∃ v1, v1 ∈ store ∧ v1.id = v2.id ∧ v2.clicks = v1.clicks := by
  intro v2 hv2
  rcases upd with ⟨t, a⟩
  cases h : URLRepository.get_by_short_code store code with
  | none =>
    simp only [URLService.update_url, h] at hv2
    exact ⟨v2, hv2, rfl, rfl⟩
  | some url =>
    have hmem : url ∈ store := List.mem_of_find?_eq_some h
    simp only [URLService.update_url, h] at hv2
    by_cases hu : (url.user_id != uid) = true
    · rw [if_pos hu] at hv2
      exact ⟨v2, hv2, rfl, rfl⟩
    · rw [if_neg hu] at hv2
      cases t <;> cases a <;>
        (simp only [URLRepository.update, List.mem_map] at hv2
         obtain ⟨u, hu2, hdef⟩ := hv2
         subst hdef
         split
         · exact ⟨url, hmem, rfl, rfl⟩
         · exact ⟨u, hu2, rfl, rfl⟩)

/-- C7: `increment_click` propagates exactly the `get_url_by_short_code`
failures with the store unchanged (so the counter is untouched on NotFound and
Gone), on success returns the entity with the counter bumped by one and
persists exactly that row, and `update_url` never changes any row's counter. -/
theorem C7_recordView (store : List URL) (code : String) :
    (∀ e, URLService.get_url_by_short_code store code = .error e →
      URLService.increment_click store code = (.error e, store))
    ∧ (∀ url, URLService.get_url_by_short_code store code = .ok url →
      URLService.increment_click store code
        = (.ok { url with clicks := url.clicks + 1 },
           URLRepository.update store { url with clicks := url.clicks + 1 }))
    ∧ (∀ upd uid now, ∀ v2 ∈ (URLService.update_url store code upd uid now).2,
        ∃ v1, v1 ∈ store ∧ v1.id = v2.id ∧ v2.clicks = v1.clicks) := by
  refine ⟨?_, ?_, ?_⟩
  · intro e he
    simp [URLService.increment_click, he]
  · intro url hu
    simp [URLService.increment_click, hu, URLRepository.increment_clicks]
  · exact fun upd uid now => update_url_clicks_preserved store code upd uid now

/-- C7 witness: a successful view bumps the fixture counter 4 → 5; views of a
deactivated and of a missing code fail like `get_url_by_short_code` with the
store unchanged. -/
theorem C7_witness :
    URLService.increment_click storeW "abc123"
      = (.ok urlWBumped, URLRepository.update storeW urlWBumped)
    ∧ URLService.increment_click storeW "off456" = (.error goneError, storeW)
    ∧ URLService.increment_click storeW "nosuch" = (.error notFoundError, storeW) := by
  refine ⟨?_, ?_, ?_⟩
  · exact (C7_recordView storeW "abc123").2.1 urlW rfl
  · exact (C7_recordView storeW "off456").1 goneError rfl
  · exact (C7_recordView storeW "nosuch").1 notFoundError rfl

/-- C9: a successful `increment_click` changes only `clicks` (by exactly one):
all other fields of the returned entity equal the fetched row's — in
particular `updated_at` is not bumped — and every other stored row is left in
place. -/
theorem C9_view_frame (store : List URL) (code : String) (url : URL) :
    URLService.get_url_by_short_code store code = .ok url →
    ∃ url2,
      URLService.increment_click store code
        = (.ok url2, URLRepository.update store url2)
      ∧ url2.clicks = url.clicks + 1
      ∧ url2.id = url.id ∧ url2.original_url = url.original_url
      ∧ url2.short_code = url.short_code ∧ url2.user_id = url.user_id
      ∧ url2.title = url.title ∧ url2.is_active = url.is_active
      ∧ url2.created_at = url.created_at ∧ url2.updated_at = url.updated_at
      ∧ ∀ v ∈ store, v.id ≠ url.id → v ∈ URLRepository.update store url2 := by
  intro h
  refine ⟨{ url with clicks := url.clicks + 1 }, ?_, rfl, rfl, rfl, rfl, rfl,
    rfl, rfl, rfl, rfl, ?_⟩
  · simp [URLService.increment_click, h, URLRepository.increment_clicks]
  · intro v hv hne
    refine List.mem_map.mpr ⟨v, hv, ?_⟩
    have hc : (v.id == url.id) = false := by
      simp [hne]
    simp [hc]

/-- C9 witness: the view of the fixture row keeps every field but `clicks`. -/
theorem C9_witness :
    ∃ url2,
      URLService.increment_click storeW "abc123"
        = (.ok url2, URLRepository.update storeW url2)
      ∧ url2.clicks = urlW.clicks + 1
      ∧ url2.id = urlW.id ∧ url2.original_url = urlW.original_url
      ∧ url2.short_code = urlW.short_code ∧ url2.user_id = urlW.user_id
      ∧ url2.title = urlW.title ∧ url2.is_active = urlW.is_active
      ∧ url2.created_at = urlW.created_at ∧ url2.updated_at = urlW.updated_at
      ∧ ∀ v ∈ storeW, v.id ≠ urlW.id → v ∈ URLRepository.update storeW url2 :=
  C9_view_frame storeW "abc123" urlW rfl

/-- C10: a `null` payload field behaves exactly like an omitted one (both are
`None` after deserialization): a `null` title leaves the stored title
unchanged, likewise the active flag, and a stored non-null title can never be
cleared through `update_url`. -/
theorem C10_null_field_omitted (store : List URL) (code uid : String)
    (now : Nat) (url : URL) (upd : URLUpdate) :
    URLRepository.get_by_short_code store code = some url →
    url.user_id = uid →
    ((upd.title = none →
        ∀ u3 st3, URLService.update_url store code upd uid now = (.ok u3, st3) →
          u3.title = url.title)
    ∧ (upd.is_active = none →
        ∀ u3 st3, URLService.update_url store code upd uid now = (.ok u3, st3) →
          u3.is_active = url.is_active)
    ∧ (∀ u3 st3, URLService.update_url store code upd uid now = (.ok u3, st3) →
        u3.title = none → url.title = none)) := by
  intro h heq
  have hcond : (url.user_id != uid) = false := by
    rw [heq]; simp
  rcases upd with ⟨t, a⟩
  refine ⟨?_, ?_, ?_⟩
  · intro htnone u3 st3 hres
    cases t with
    | none =>
      cases a <;>
        (simp [URLService.update_url, h, hcond] at hres
         rw [← hres.1])
    | some t0 => simp at htnone
  · intro hanone u3 st3 hres
    cases a with
    | none =>
      cases t <;>
        (simp [URLService.update_url, h, hcond] at hres
         rw [← hres.1])
    | some a0 => simp at hanone
  · intro u3 st3 hres ht3
    cases t with
    | none =>
      cases a <;>
        (simp [URLService.update_url, h, hcond] at hres
         rw [← hres.1] at ht3
         exact ht3)
    | some t0 =>
      cases a <;>
        (simp [URLService.update_url, h, hcond] at hres
         rw [← hres.1] at ht3
         simp at ht3)

/-- C10 witness: updating with a null title leaves the stored title intact. -/
theorem C10_witness :
    URLService.update_url storeW "abc123" updDeactivate "alice" 9
      = (.ok urlWAfter, URLRepository.update storeW urlWAfter)
    ∧ urlWAfter.title = urlW.title := by
  refine ⟨rfl, ?_⟩
  exact (C10_null_field_omitted storeW "abc123" "alice" 9 urlW updDeactivate rfl
    rfl).1 rfl urlWAfter (URLRepository.update storeW urlWAfter) rfl

/-- C8: evaluation at the failing input. `get_user_urls` — whose source
signature takes no filters parameter even though the route handler passes one
— returns the deactivated row and counts it, only the owner's rows newest
first; the repository, given the same filter the route supplies, excludes
that row from both the page and the count. So filters cannot reach pagination
or the count through the service. -/
theorem C8_list_filters_not_applied :
    URLService.get_user_urls store8 "alice" 1 20 = ([urlNew8, urlOld8], 2)
    ∧ URLRepository.get_by_user_id store8 "alice" 0 20 (some activeOnlyFilter)
      = [urlNew8]
    ∧ URLRepository.count_by_user_id store8 "alice" (some activeOnlyFilter) = 1
    ∧ URLService.get_user_urls store8 "alice" 2 1 = ([urlOld8], 2) := by
  exact ⟨rfl, rfl, rfl, rfl⟩

end URLShortner
